import Mathlib

/-!
Verification development for the relocation engine of the mold ELF linker,
shallowly embedding `elf/input-sections.cc`.

Modelling conventions:
* C++ machine integers become `Nat`/`Int`, with explicit `% 2^w` wherever
  the source relies on wrap-around (`u64` subtraction in `CieRecord::equals`,
  `Word<E>` stores in `apply_abs_dyn_rel`).
* A `Context` is represented by the configuration bits the translated code
  reads (`Args`) plus the mutable `has_textrel` flag, threaded explicitly.
* Diagnostics (`Error`, `Warn`) are modelled as values accumulated in a list;
  `Fatal` paths become `Except.error`.
* Architecture-dependent quantities that the translated code only passes
  around (word width, `R_RELATIVE` / `R_ABS` codes, `sizeof(ElfChdr)`, the
  zlib inflate routine, the raw read of `ch_type` from the header bytes) are
  parameters, so every theorem below holds for each architecture instance.
-/

namespace MoldElf

/-- ELF standard constant: symbol type for functions (`STT_FUNC`). -/
def STT_FUNC : Nat := 2

/-- ELF standard constant: protected symbol visibility (`STV_PROTECTED`). -/
def STV_PROTECTED : Nat := 3

/-- ELF standard constant: zlib compression algorithm id (`ELFCOMPRESS_ZLIB`). -/
def ELFCOMPRESS_ZLIB : Nat := 1

/-- ELF standard constant: section type with no bits in the file (`SHT_NOBITS`). -/
def SHT_NOBITS : Nat := 8

/-- The seven-valued relocation `Action` tag from `input-sections.cc`. -/
inductive Action
  | NONE
  | ERROR
  | COPYREL
  | PLT
  | CPLT
  | DYNREL
  | BASEREL
deriving DecidableEq

/-- The configuration flags of `ctx.arg` read by the relocation scan code. -/
structure Args where
  shared : Bool
  pie : Bool
  z_text : Bool
  warn_textrel : Bool
  z_copyreloc : Bool
deriving DecidableEq

/-- The capability-request bits of `Symbol::flags` that `dispatch` can set
(`NEEDS_PLT`, `NEEDS_CPLT`, `NEEDS_COPYREL`); distinct bits of the C++
bitmask become distinct booleans, so `|=` is a field update. -/
structure SymFlags where
  needs_plt : Bool
  needs_cplt : Bool
  needs_copyrel : Bool
deriving DecidableEq

/-- Model of `flags |= NEEDS_PLT`. -/
def setNeedsPlt (f : SymFlags) : SymFlags :=
  ⟨true, f.needs_cplt, f.needs_copyrel⟩

/-- Model of `flags |= NEEDS_CPLT`. -/
def setNeedsCplt (f : SymFlags) : SymFlags :=
  ⟨f.needs_plt, true, f.needs_copyrel⟩

/-- Model of `flags |= NEEDS_COPYREL`. -/
def setNeedsCopyrel (f : SymFlags) : SymFlags :=
  ⟨f.needs_plt, f.needs_cplt, true⟩

/-- The attributes of a resolved `Symbol` consumed by the scan code:
`is_absolute()`, `is_imported`, `get_type()` (`st_type`),
`esym().st_visibility`, and the writable `flags` field. -/
structure Sym where
  is_absolute : Bool
  is_imported : Bool
  st_type : Nat
  st_visibility : Nat
  flags : SymFlags
deriving DecidableEq

/-- The diagnostics `dispatch` can emit: the generic recompile error produced
by the local `error` lambda (carrying its suggested flag), the read-only
section warning, and the protected-symbol copy-relocation error. -/
inductive Diag
  | errRecompile (msg : String)
  | warnTextrel
  | errProtectedCopyrel
deriving DecidableEq

/-- The flag the generic `error` lambda suggests:
`sym.is_absolute() ? "-fno-PIC" : "-fPIC"`. -/
def recompileMsg (absolute : Bool) : String :=
  if absolute then "-fno-PIC" else "-fPIC"

/-- Observable result of one `dispatch` call: emitted diagnostics, the
symbol's flags afterwards, the increment applied to `file.num_dynrel`, and
the value of `ctx.has_textrel` afterwards. -/
structure DispatchOut where
  diags : List Diag
  flags : SymFlags
  num_dynrel_inc : Nat
  has_textrel : Bool
deriving DecidableEq

/-- Diagnostics emitted by the `check_textrel` lambda: nothing if the section
is writable; otherwise the generic error under `z_text`, else a warning under
`warn_textrel`, else nothing. -/
def textrelDiags (arg : Args) (writable absolute : Bool) : List Diag :=
  if writable then []
  else if arg.z_text then [Diag.errRecompile (recompileMsg absolute)]
  else if arg.warn_textrel then [Diag.warnTextrel]
  else []

/-- Value of `ctx.has_textrel` after `check_textrel`: unchanged if the
section is writable, unconditionally `true` otherwise. -/
def textrelFlag (writable ht : Bool) : Bool :=
  if writable then ht else true

/-- Model of `dispatch(ctx, isec, action, sym, rel)`. `writable` is
`isec.shdr().sh_flags & SHF_WRITE`, `relr` is `isec.is_relr_reloc(ctx, rel)`,
`ht` is `ctx.has_textrel` on entry. The `assert(sym.is_imported)` in the
`DYNREL` branch is a no-op on the modelled observables and is omitted. -/
def dispatch (arg : Args) (writable relr : Bool) (action : Action)
    (sym : Sym) (ht : Bool) : DispatchOut :=
  match action with
  | .NONE => ⟨[], sym.flags, 0, ht⟩
  | .ERROR => ⟨[Diag.errRecompile (recompileMsg sym.is_absolute)], sym.flags, 0, ht⟩
  | .COPYREL =>
      ⟨(if arg.z_copyreloc = false then
          [Diag.errRecompile (recompileMsg sym.is_absolute)]
        else if sym.st_visibility = STV_PROTECTED then
          [Diag.errProtectedCopyrel]
        else []),
       setNeedsCopyrel sym.flags, 0, ht⟩
  | .PLT => ⟨[], setNeedsPlt sym.flags, 0, ht⟩
  | .CPLT => ⟨[], setNeedsCplt sym.flags, 0, ht⟩
  | .DYNREL =>
      ⟨textrelDiags arg writable sym.is_absolute, sym.flags, 1,
       textrelFlag writable ht⟩
  | .BASEREL =>
      ⟨textrelDiags arg writable sym.is_absolute, sym.flags,
       (if relr then 0 else 1), textrelFlag writable ht⟩

/-- Row selector of `get_rel_action`: 0 = shared object, 1 = PIE,
2 = position-dependent executable. -/
def get_output_type (arg : Args) : Nat :=
  if arg.shared = true then 0
  else if arg.pie = true then 1
  else 2

/-- Column selector of `get_rel_action`: 0 = absolute, 1 = local
(non-imported, non-absolute), 2 = imported data, 3 = imported function. -/
def get_sym_type (sym : Sym) : Nat :=
  if sym.is_absolute = true then 0
  else if sym.is_imported = false then 1
  else if sym.st_type ≠ STT_FUNC then 2
  else 3

/-- Model of `get_rel_action(ctx, table, sym)`: index the table by
output flavor row and symbol class column. -/
def get_rel_action (arg : Args) (table : Nat → Nat → Action) (sym : Sym) : Action :=
  table (get_output_type arg) (get_sym_type sym)

/-- The decision table literal in `scan_abs_rel` (narrow absolute
relocations). -/
def abs_table : Nat → Nat → Action
  | 0, 0 => .NONE
  | 0, 1 => .ERROR
  | 0, 2 => .ERROR
  | 0, 3 => .ERROR
  | 1, 0 => .NONE
  | 1, 1 => .ERROR
  | 1, 2 => .ERROR
  | 1, 3 => .ERROR
  | 2, 0 => .NONE
  | 2, 1 => .NONE
  | 2, 2 => .COPYREL
  | 2, 3 => .CPLT
  | _, _ => .NONE

/-- The general decision table literal in `get_abs_dyn_action` (word-size
absolute relocations, non-`.toc` case). -/
def abs_dyn_table : Nat → Nat → Action
  | 0, 0 => .NONE
  | 0, 1 => .BASEREL
  | 0, 2 => .DYNREL
  | 0, 3 => .DYNREL
  | 1, 0 => .NONE
  | 1, 1 => .BASEREL
  | 1, 2 => .DYNREL
  | 1, 3 => .DYNREL
  | 2, 0 => .NONE
  | 2, 1 => .NONE
  | 2, 2 => .COPYREL
  | 2, 3 => .CPLT
  | _, _ => .NONE

/-- The special decision table literal in `get_abs_dyn_action` for PPC64
`.toc` sections. -/
def toc_table : Nat → Nat → Action
  | 0, 0 => .NONE
  | 0, 1 => .BASEREL
  | 0, 2 => .DYNREL
  | 0, 3 => .DYNREL
  | 1, 0 => .NONE
  | 1, 1 => .BASEREL
  | 1, 2 => .DYNREL
  | 1, 3 => .DYNREL
  | 2, 0 => .NONE
  | 2, 1 => .NONE
  | 2, 2 => .DYNREL
  | 2, 3 => .DYNREL
  | _, _ => .NONE

/-- Model of `get_abs_dyn_action(ctx, sym, isec)`. `isPPC64` is
`std::is_same_v<E, PPC64>` and `secName` is `isec.name()`. -/
def get_abs_dyn_action (arg : Args) (isPPC64 : Bool) (secName : String)
    (sym : Sym) : Action :=
  if isPPC64 = true ∧ secName = ".toc" then get_rel_action arg toc_table sym
  else get_rel_action arg abs_dyn_table sym

/-- Model of `InputSection::scan_abs_rel(ctx, sym, rel)`. -/
def scan_abs_rel (arg : Args) (writable relr : Bool) (sym : Sym)
    (ht : Bool) : DispatchOut :=
  dispatch arg writable relr (get_rel_action arg abs_table sym) sym ht

/-- Model of `InputSection::scan_abs_dyn_rel(ctx, sym, rel)`. -/
def scan_abs_dyn_rel (arg : Args) (isPPC64 : Bool) (secName : String)
    (writable relr : Bool) (sym : Sym) (ht : Bool) : DispatchOut :=
  dispatch arg writable relr (get_abs_dyn_action arg isPPC64 secName sym) sym ht

/-- Transcription of the spec's Table A (narrow absolute relocations); kept
separate from `abs_table` so the refinement is between distinct definitions. -/
def tableA_spec : Nat → Nat → Action
  | 0, 0 => .NONE
  | 0, 1 => .ERROR
  | 0, 2 => .ERROR
  | 0, 3 => .ERROR
  | 1, 0 => .NONE
  | 1, 1 => .ERROR
  | 1, 2 => .ERROR
  | 1, 3 => .ERROR
  | 2, 0 => .NONE
  | 2, 1 => .NONE
  | 2, 2 => .COPYREL
  | 2, 3 => .CPLT
  | _, _ => .NONE

/-- Transcription of the spec's Table B (word-size absolute relocations);
kept separate from `abs_dyn_table` so the refinement is between distinct
definitions. -/
def tableB_spec : Nat → Nat → Action
  | 0, 0 => .NONE
  | 0, 1 => .BASEREL
  | 0, 2 => .DYNREL
  | 0, 3 => .DYNREL
  | 1, 0 => .NONE
  | 1, 1 => .BASEREL
  | 1, 2 => .DYNREL
  | 1, 3 => .DYNREL
  | 2, 0 => .NONE
  | 2, 1 => .NONE
  | 2, 2 => .COPYREL
  | 2, 3 => .CPLT
  | _, _ => .NONE

theorem output_type_cases (arg : Args) :
    get_output_type arg = 0 ∨ get_output_type arg = 1 ∨ get_output_type arg = 2 := by
  unfold get_output_type
  split_ifs <;> simp

theorem sym_type_cases (sym : Sym) :
    get_sym_type sym = 0 ∨ get_sym_type sym = 1 ∨
      get_sym_type sym = 2 ∨ get_sym_type sym = 3 := by
  unfold get_sym_type
  split_ifs <;> simp

theorem abs_dyn_table_eq_spec (r c : Nat) : abs_dyn_table r c = tableB_spec r c := by
  rcases r with _ | _ | _ | r <;> rcases c with _ | _ | _ | _ | c <;> rfl

theorem abs_table_eq_spec (r c : Nat) : abs_table r c = tableA_spec r c := by
  rcases r with _ | _ | _ | r <;> rcases c with _ | _ | _ | _ | c <;> rfl

theorem sym_type_two_not_absolute (sym : Sym) (h : get_sym_type sym = 2) :
    sym.is_absolute = false := by
  unfold get_sym_type at h
  split_ifs at h <;> simp_all

/-- C1: the Action computed for a word-size absolute relocation by
`scan_abs_dyn_rel` / `apply_abs_dyn_rel` via `get_abs_dyn_action` is exactly
the Table B entry at (output flavor row, symbol class column); except that
for a PPC64 `.toc` section the imported-symbol columns are `DYNREL` in every
flavor, the other columns still follow Table B, and `COPYREL`/`CPLT` are
never chosen there. -/
theorem c1_abs_dyn_action_is_tableB (arg : Args) (isPPC64 : Bool)
    (secName : String) (writable relr : Bool) (sym : Sym) (ht : Bool) :
    (¬ (isPPC64 = true ∧ secName = ".toc") →
      get_abs_dyn_action arg isPPC64 secName sym =
        tableB_spec (get_output_type arg) (get_sym_type sym))
    ∧ (isPPC64 = true ∧ secName = ".toc" →
        (get_sym_type sym = 2 ∨ get_sym_type sym = 3 →
          get_abs_dyn_action arg isPPC64 secName sym = Action.DYNREL)
        ∧ (get_sym_type sym = 0 ∨ get_sym_type sym = 1 →
          get_abs_dyn_action arg isPPC64 secName sym =
            tableB_spec (get_output_type arg) (get_sym_type sym))
        ∧ get_abs_dyn_action arg isPPC64 secName sym ≠ Action.COPYREL
        ∧ get_abs_dyn_action arg isPPC64 secName sym ≠ Action.CPLT)
    ∧ scan_abs_dyn_rel arg isPPC64 secName writable relr sym ht =
        dispatch arg writable relr (get_abs_dyn_action arg isPPC64 secName sym)
          sym ht := by
  refine ⟨?_, ?_, rfl⟩
  · intro h
    unfold get_abs_dyn_action
    rw [if_neg h]
    exact abs_dyn_table_eq_spec _ _
  · intro h
    unfold get_abs_dyn_action
    rw [if_pos h]
    unfold get_rel_action
    rcases output_type_cases arg with hr | hr | hr <;>
      rcases sym_type_cases sym with hc | hc | hc | hc <;>
        rw [hr, hc] <;> decide

/-- C1 witness: in a shared-object link against imported data in a PPC64
`.toc` section, the chosen Action is `DYNREL`. -/
theorem c1_abs_dyn_action_is_tableB_witness :
    get_abs_dyn_action ⟨true, false, false, false, true⟩ true ".toc"
      ⟨false, true, 1, 0, ⟨false, false, false⟩⟩ = Action.DYNREL :=
  ((c1_abs_dyn_action_is_tableB ⟨true, false, false, false, true⟩ true ".toc"
      true true ⟨false, true, 1, 0, ⟨false, false, false⟩⟩ false).2.1
    ⟨rfl, rfl⟩).1 (Or.inl (by decide))

/-- C2: `scan_abs_rel` selects exactly the Table A entry; in particular
imported data in a PIE yields `ERROR` with a `-fPIC` recompile diagnostic,
and imported data in a non-PIE executable yields `COPYREL` with the symbol's
`NEEDS_COPYREL` flag set. -/
theorem c2_scan_abs_rel_is_tableA (arg : Args) (writable relr : Bool)
    (sym : Sym) (ht : Bool) :
    get_rel_action arg abs_table sym =
        tableA_spec (get_output_type arg) (get_sym_type sym)
    ∧ scan_abs_rel arg writable relr sym ht =
        dispatch arg writable relr (get_rel_action arg abs_table sym) sym ht
    ∧ (get_output_type arg = 1 → get_sym_type sym = 2 →
        (scan_abs_rel arg writable relr sym ht).diags =
          [Diag.errRecompile "-fPIC"])
    ∧ (get_output_type arg = 2 → get_sym_type sym = 2 →
        get_rel_action arg abs_table sym = Action.COPYREL ∧
        (scan_abs_rel arg writable relr sym ht).flags.needs_copyrel = true) := by
  refine ⟨abs_table_eq_spec _ _, rfl, ?_, ?_⟩
  · intro h1 h2
    have ha : sym.is_absolute = false := sym_type_two_not_absolute sym h2
    have hact : get_rel_action arg abs_table sym = Action.ERROR := by
      unfold get_rel_action
      rw [h1, h2]
      decide
    unfold scan_abs_rel
    rw [hact]
    simp [dispatch, recompileMsg, ha]
  · intro h1 h2
    have hact : get_rel_action arg abs_table sym = Action.COPYREL := by
      unfold get_rel_action
      rw [h1, h2]
      decide
    refine ⟨hact, ?_⟩
    unfold scan_abs_rel
    rw [hact]
    simp [dispatch, setNeedsCopyrel]

/-- C2 witness: a narrow absolute relocation against imported data in a PIE
link produces the `-fPIC` recompile error. -/
theorem c2_scan_abs_rel_is_tableA_witness :
    (scan_abs_rel ⟨false, true, false, false, true⟩ true true
        ⟨false, true, 1, 0, ⟨false, false, false⟩⟩ false).diags =
      [Diag.errRecompile "-fPIC"] :=
  (c2_scan_abs_rel_is_tableA ⟨false, true, false, false, true⟩ true true
      ⟨false, true, 1, 0, ⟨false, false, false⟩⟩ false).2.2.1
    (by decide) (by decide)

/-- A relocation entry as built by the `ElfRel<E>(offset, type, sym, addend)`
constructor: `u64` offset, type code, symbol index, `i64` addend. -/
structure ElfRel where
  r_offset : Nat
  r_type : Nat
  r_sym : Nat
  r_addend : Int
deriving DecidableEq

/-- Reduction of an integer to its `u64` representation (value in
`[0, 2^64)`), as C++ unsigned conversion does. -/
def u64of (x : Int) : Nat :=
  (x % ((2 : Int) ^ 64)).toNat

/-- Reinterpretation of a `u64` quantity as an `i64`, as the `ElfRel`
constructor's addend parameter does (two's-complement wrap). -/
def i64wrap (x : Int) : Int :=
  if x % ((2 : Int) ^ 64) < (2 : Int) ^ 63 then x % ((2 : Int) ^ 64)
  else x % ((2 : Int) ^ 64) - (2 : Int) ^ 64

/-- The value stored by `*(Word<E> *)loc = x` for a word of `wbits` bits:
the `u64` value of `x` truncated to the word width. -/
def wordStore (wbits : Nat) (x : Int) : Nat :=
  u64of x % 2 ^ wbits

/-- Observable result of one `apply_abs_dyn_rel` call: the word written at
`loc` and the entries appended at the `dynrel` cursor. -/
structure ApplyOut where
  word : Nat
  dynrels : List ElfRel
deriving DecidableEq

/-- Model of `InputSection::apply_abs_dyn_rel(ctx, sym, rel, loc, S, A, P,
dynrel)`. `relr` is `is_relr_reloc(ctx, rel)`, `rRelative`/`rAbs` are the
architecture's `E::R_RELATIVE`/`E::R_ABS` codes, `wbits` the width of
`Word<E>`, `dynsymIdx` is `sym.get_dynsym_idx(ctx)`. The `default:
unreachable()` branch is `none`. -/
def apply_abs_dyn_rel (arg : Args) (isPPC64 : Bool) (secName : String)
    (relr : Bool) (rRelative rAbs wbits dynsymIdx : Nat) (sym : Sym)
    (S : Nat) (A : Int) (P : Nat) : Option ApplyOut :=
  match get_abs_dyn_action arg isPPC64 secName sym with
  | .COPYREL => some ⟨wordStore wbits ((S : Int) + A), []⟩
  | .CPLT => some ⟨wordStore wbits ((S : Int) + A), []⟩
  | .NONE => some ⟨wordStore wbits ((S : Int) + A), []⟩
  | .BASEREL =>
      if relr = false then
        some ⟨wordStore wbits ((S : Int) + A),
              [⟨P, rRelative, 0, i64wrap ((S : Int) + A)⟩]⟩
      else
        some ⟨wordStore wbits ((S : Int) + A), []⟩
  | .DYNREL => some ⟨wordStore wbits A, [⟨P, rAbs, dynsymIdx, A⟩]⟩
  | _ => none

/-- C3: `apply_abs_dyn_rel` writes `S + A` and appends nothing under `NONE`,
`COPYREL`, `CPLT`; under `BASEREL` it writes `S + A` and appends one
`R_RELATIVE` entry at `P` with addend `S + A` exactly when the section is not
RELR-compacted; under `DYNREL` it appends one absolute dynamic relocation at
`P` with the symbol's dynamic-symtab index and addend `A` and writes `A`. -/
theorem c3_apply_abs_dyn_rel_cases (arg : Args) (isPPC64 : Bool)
    (secName : String) (relr : Bool) (rRelative rAbs wbits dynsymIdx : Nat)
    (sym : Sym) (S : Nat) (A : Int) (P : Nat) :
    (get_abs_dyn_action arg isPPC64 secName sym = Action.NONE ∨
     get_abs_dyn_action arg isPPC64 secName sym = Action.COPYREL ∨
     get_abs_dyn_action arg isPPC64 secName sym = Action.CPLT →
      apply_abs_dyn_rel arg isPPC64 secName relr rRelative rAbs wbits dynsymIdx
          sym S A P = some ⟨wordStore wbits ((S : Int) + A), []⟩)
    ∧ (get_abs_dyn_action arg isPPC64 secName sym = Action.BASEREL →
        relr = false →
        apply_abs_dyn_rel arg isPPC64 secName relr rRelative rAbs wbits
            dynsymIdx sym S A P =
          some ⟨wordStore wbits ((S : Int) + A),
                [⟨P, rRelative, 0, i64wrap ((S : Int) + A)⟩]⟩)
    ∧ (get_abs_dyn_action arg isPPC64 secName sym = Action.BASEREL →
        relr = true →
        apply_abs_dyn_rel arg isPPC64 secName relr rRelative rAbs wbits
            dynsymIdx sym S A P =
          some ⟨wordStore wbits ((S : Int) + A), []⟩)
    ∧ (get_abs_dyn_action arg isPPC64 secName sym = Action.DYNREL →
        apply_abs_dyn_rel arg isPPC64 secName relr rRelative rAbs wbits
            dynsymIdx sym S A P =
          some ⟨wordStore wbits A, [⟨P, rAbs, dynsymIdx, A⟩]⟩) := by
  refine ⟨?_, ?_, ?_, ?_⟩
  · intro h
    rcases h with h | h | h <;>
      (unfold apply_abs_dyn_rel; rw [h])
  · intro h hr
    unfold apply_abs_dyn_rel
    rw [h, hr]
    rfl
  · intro h hr
    unfold apply_abs_dyn_rel
    rw [h, hr]
    rfl
  · intro h
    unfold apply_abs_dyn_rel
    rw [h]

/-- C3 witness: a word-size absolute relocation against a local symbol in a
shared object (Action `BASEREL`, no RELR) writes `S + A` and appends one
`R_RELATIVE` entry at `P` with addend `S + A`. -/
theorem c3_apply_abs_dyn_rel_cases_witness :
    apply_abs_dyn_rel ⟨true, false, false, false, true⟩ false ".data" false
        8 1 64 0 ⟨false, false, 1, 0, ⟨false, false, false⟩⟩ 4096 10 256 =
      some ⟨wordStore 64 ((4096 : Int) + 10),
            [⟨256, 8, 0, i64wrap ((4096 : Int) + 10)⟩]⟩ :=
  (c3_apply_abs_dyn_rel_cases ⟨true, false, false, false, true⟩ false ".data"
      false 8 1 64 0 ⟨false, false, 1, 0, ⟨false, false, false⟩⟩ 4096 10
      256).2.1 (by decide) rfl

/-- C4 counterexample: dispatching `COPYREL` on a protected-visibility symbol
with `z_copyreloc = false` emits a diagnostic, but not the one naming
protected visibility — refuting the claim's "regardless of z_copyreloc". -/
theorem c4_counterexample_no_protected_diag :
    Diag.errProtectedCopyrel ∉
      (dispatch ⟨false, false, false, false, false⟩ true true Action.COPYREL
        ⟨false, true, 1, 3, ⟨false, false, false⟩⟩ false).diags ∧
    (dispatch ⟨false, false, false, false, false⟩ true true Action.COPYREL
        ⟨false, true, 1, 3, ⟨false, false, false⟩⟩ false).diags ≠ [] := by
  decide

/-- C4 amended: when `COPYREL` is dispatched on a protected-visibility
symbol, the error naming protected visibility is emitted iff `z_copyreloc`
is true; when `z_copyreloc` is false the generic recompile error is emitted
instead. -/
theorem c4_amended_protected_copyrel_diag (arg : Args) (writable relr : Bool)
    (sym : Sym) (ht : Bool) (hvis : sym.st_visibility = STV_PROTECTED) :
    (Diag.errProtectedCopyrel ∈
        (dispatch arg writable relr Action.COPYREL sym ht).diags ↔
      arg.z_copyreloc = true)
    ∧ (arg.z_copyreloc = false →
        (dispatch arg writable relr Action.COPYREL sym ht).diags =
          [Diag.errRecompile (recompileMsg sym.is_absolute)]) := by
  constructor
  · rcases hz : arg.z_copyreloc with _ | _
    · simp [dispatch, hz]
    · simp [dispatch, hz, hvis]
  · intro hz
    simp [dispatch, hz]

/-- C4 amended witness: with `z_copyreloc = true` the protected-visibility
error is emitted for a protected symbol. -/
theorem c4_amended_protected_copyrel_diag_witness :
    Diag.errProtectedCopyrel ∈
      (dispatch ⟨false, false, false, false, true⟩ true true Action.COPYREL
        ⟨false, true, 1, 3, ⟨false, false, false⟩⟩ false).diags :=
  (c4_amended_protected_copyrel_diag ⟨false, false, false, false, true⟩ true
      true ⟨false, true, 1, 3, ⟨false, false, false⟩⟩ false rfl).1.mpr rfl

/-- C5 counterexample: on the rejected path where `z_copyreloc = false`, the
dispatch emits an error yet still turns on `NEEDS_COPYREL`, which was clear
before — refuting "on either rejected path the flag is left unchanged". -/
theorem c5_counterexample_flag_set_on_reject :
    (dispatch ⟨false, false, false, false, false⟩ true true Action.COPYREL
        ⟨false, true, 1, 0, ⟨false, false, false⟩⟩ false).diags ≠ [] ∧
    (dispatch ⟨false, false, false, false, false⟩ true true Action.COPYREL
        ⟨false, true, 1, 0, ⟨false, false, false⟩⟩ false).flags.needs_copyrel =
      true := by
  decide

/-- C5 amended: `COPYREL` dispatch records an error exactly when copy
relocations are disallowed or the symbol has protected visibility, and sets
`NEEDS_COPYREL` unconditionally — including on both rejected paths. -/
theorem c5_amended_copyrel_flag_unconditional (arg : Args)
    (writable relr : Bool) (sym : Sym) (ht : Bool) :
    (dispatch arg writable relr Action.COPYREL sym ht).flags.needs_copyrel =
      true
    ∧ ((dispatch arg writable relr Action.COPYREL sym ht).diags ≠ [] ↔
        (arg.z_copyreloc = false ∨ sym.st_visibility = STV_PROTECTED)) := by
  constructor
  · simp [dispatch, setNeedsCopyrel]
  · rcases hz : arg.z_copyreloc with _ | _
    · simp [dispatch, hz]
    · by_cases hv : sym.st_visibility = STV_PROTECTED <;>
        simp [dispatch, hz, hv]

/-- C5 amended witness: on the accepted path (copy relocations allowed,
default visibility) no error is recorded and the flag is set. -/
theorem c5_amended_copyrel_flag_unconditional_witness :
    (dispatch ⟨false, false, false, false, true⟩ true true Action.COPYREL
        ⟨false, true, 1, 0, ⟨false, false, false⟩⟩ false).flags.needs_copyrel =
      true :=
  (c5_amended_copyrel_flag_unconditional ⟨false, false, false, false, true⟩
      true true ⟨false, true, 1, 0, ⟨false, false, false⟩⟩ false).1

/-- C6: for `DYNREL`/`BASEREL` dispatch (the actions that invoke
`check_textrel`): a writable section yields no diagnostic and leaves
`has_textrel` unchanged; a non-writable section yields the error under
`z_text`, else the warning under `warn_textrel`, else nothing, and always
sets `has_textrel` to true — including when the hard error is emitted. -/
theorem c6_textrel_check (arg : Args) (writable relr : Bool) (action : Action)
    (sym : Sym) (ht : Bool)
    (hact : action = Action.DYNREL ∨ action = Action.BASEREL) :
    (writable = true →
      (dispatch arg writable relr action sym ht).diags = [] ∧
      (dispatch arg writable relr action sym ht).has_textrel = ht)
    ∧ (writable = false →
        (arg.z_text = true →
          (dispatch arg writable relr action sym ht).diags =
            [Diag.errRecompile (recompileMsg sym.is_absolute)])
        ∧ (arg.z_text = false → arg.warn_textrel = true →
            (dispatch arg writable relr action sym ht).diags =
              [Diag.warnTextrel])
        ∧ (arg.z_text = false → arg.warn_textrel = false →
            (dispatch arg writable relr action sym ht).diags = [])
        ∧ (dispatch arg writable relr action sym ht).has_textrel = true) := by
  have hd : (dispatch arg writable relr action sym ht).diags =
      textrelDiags arg writable sym.is_absolute ∧
      (dispatch arg writable relr action sym ht).has_textrel =
        textrelFlag writable ht := by
    rcases hact with h | h <;> subst h <;> exact ⟨rfl, rfl⟩
  rw [hd.1, hd.2]
  constructor
  · intro hw
    constructor
    · simp [textrelDiags, hw]
    · simp [textrelFlag, hw]
  · intro hw
    refine ⟨?_, ?_, ?_, ?_⟩
    · intro hz
      simp [textrelDiags, hw, hz]
    · intro hz hwn
      simp [textrelDiags, hw, hz, hwn]
    · intro hz hwn
      simp [textrelDiags, hw, hz, hwn]
    · simp [textrelFlag, hw]

/-- C6 witness: a `DYNREL` action in a read-only section with `z_text` set
emits the hard error and still sets `has_textrel`. -/
theorem c6_textrel_check_witness :
    (dispatch ⟨true, false, true, false, true⟩ false true Action.DYNREL
        ⟨false, true, 1, 0, ⟨false, false, false⟩⟩ false).diags =
      [Diag.errRecompile (recompileMsg false)] ∧
    (dispatch ⟨true, false, true, false, true⟩ false true Action.DYNREL
        ⟨false, true, 1, 0, ⟨false, false, false⟩⟩ false).has_textrel = true :=
  ⟨((c6_textrel_check ⟨true, false, true, false, true⟩ false true Action.DYNREL
      ⟨false, true, 1, 0, ⟨false, false, false⟩⟩ false (Or.inl rfl)).2 rfl).1
    rfl,
   ((c6_textrel_check ⟨true, false, true, false, true⟩ false true Action.DYNREL
      ⟨false, true, 1, 0, ⟨false, false, false⟩⟩ false
      (Or.inl rfl)).2 rfl).2.2.2⟩

/-- The `InputSection` state consumed by `uncompress`, `uncompress_to` and
`write_to`: the compression flags, the current contents bytes, the logical
size `sh_size`, whether the section name starts with `.zdebug`, the section
type and the `SHF_ALLOC` bit. -/
structure Sec where
  compressed : Bool
  uncompressed : Bool
  contents : List Nat
  sh_size : Nat
  isZdebug : Bool
  sh_type : Nat
  sh_flags_alloc : Bool
deriving DecidableEq

/-- The fatal failure modes of `uncompress_to`: the two
"corrupted compressed section" paths, the "unsupported compression type"
path, the `Z_OK` check of the zlib call ("uncompress failed"), and the
`assert(size == sh_size)` on a short output. -/
inductive UErr
  | corrupted
  | unsupported (chType : Nat)
  | decompressFailed
  | sizeMismatch
deriving DecidableEq

/-- True for the two failure modes of the zlib decompression itself. -/
def isDecompErr : Except UErr (List Nat) → Bool
  | .error .decompressFailed => true
  | .error .sizeMismatch => true
  | _ => false

/-- The bytes of the ASCII header `"ZLIB"`. -/
def zlibMagic : List Nat := [90, 76, 73, 66]

/-- Model of `contents.starts_with("ZLIB")`. -/
def startsWithZLIB (l : List Nat) : Bool := l.take 4 == zlibMagic

/-- Model of the `do_uncompress` lambda: `::uncompress` into a buffer of
capacity `sh_size`. `inflate` is the abstract zlib stream decoder, returning
the fully decoded byte sequence, or `none` when the stream is invalid. zlib
returns non-`Z_OK` when the stream is invalid or its output would exceed the
capacity (`Fatal`, "uncompress failed"); a decode shorter than `sh_size`
trips `assert(size == sh_size)`, modelled as the `sizeMismatch` failure. -/
def do_uncompress (inflate : List Nat → Option (List Nat)) (cap : Nat)
    (data : List Nat) : Except UErr (List Nat) :=
  match inflate data with
  | none => .error .decompressFailed
  | some out =>
      if cap < out.length then .error .decompressFailed
      else if out.length ≠ cap then .error .sizeMismatch
      else .ok out

/-- Model of `InputSection::uncompress_to(ctx, buf)`. `readChType` abstracts
the raw read of `ch_type` from the header bytes `(ElfChdr<E> *)&contents[0]`
and `chdrSize` is `sizeof(ElfChdr<E>)`; both depend only on the architecture.
The returned list is what the call writes into `buf`. -/
def uncompress_to (inflate : List Nat → Option (List Nat))
    (readChType : List Nat → Nat) (chdrSize : Nat) (s : Sec) :
    Except UErr (List Nat) :=
  if s.compressed = false ∨ s.uncompressed = true then .ok s.contents
  else if s.isZdebug = true then
    if startsWithZLIB s.contents = false ∨ s.contents.length ≤ 12 then
      .error .corrupted
    else do_uncompress inflate s.sh_size (s.contents.drop 12)
  else
    if s.contents.length < chdrSize then .error .corrupted
    else if readChType s.contents ≠ ELFCOMPRESS_ZLIB then
      .error (.unsupported (readChType s.contents))
    else do_uncompress inflate s.sh_size (s.contents.drop chdrSize)

/-- Model of `InputSection::uncompress(ctx)`: no-op unless compressed and not
yet uncompressed; otherwise decompress into a fresh buffer, install it as the
contents and mark the section uncompressed. -/
def uncompress (inflate : List Nat → Option (List Nat))
    (readChType : List Nat → Nat) (chdrSize : Nat) (s : Sec) :
    Except UErr Sec :=
  if s.compressed = false ∨ s.uncompressed = true then .ok s
  else
    match uncompress_to inflate readChType chdrSize s with
    | .error e => .error e
    | .ok buf =>
        .ok ⟨s.compressed, true, buf, s.sh_size, s.isZdebug, s.sh_type,
             s.sh_flags_alloc⟩

/-- The decoded stream is invalid, or does not decode to exactly `n` bytes. -/
def badInflate (inflate : List Nat → Option (List Nat)) (data : List Nat)
    (n : Nat) : Prop :=
  inflate data = none ∨ ∃ o, inflate data = some o ∧ o.length ≠ n

theorem do_uncompress_ok_length (inflate : List Nat → Option (List Nat))
    (cap : Nat) (data out : List Nat)
    (h : do_uncompress inflate cap data = .ok out) : out.length = cap := by
  rcases hi : inflate data with _ | o
  · simp [do_uncompress, hi] at h
  · simp only [do_uncompress, hi] at h
    split_ifs at h with h1 h2
    cases h
    omega

theorem do_uncompress_bad (inflate : List Nat → Option (List Nat))
    (cap : Nat) (data : List Nat) (hbad : badInflate inflate data cap) :
    isDecompErr (do_uncompress inflate cap data) = true := by
  rcases hbad with hnone | ⟨o, ho, hlen⟩
  · simp [do_uncompress, hnone, isDecompErr]
  · by_cases hlt : cap < o.length
    · simp [do_uncompress, ho, hlt, isDecompErr]
    · simp [do_uncompress, ho, hlt, hlen, isDecompErr]

/-- C7: on a compressed, not-yet-uncompressed section, `uncompress_to` fails
with the corrupted-section error on a truncated header (a `.zdebug` section
not starting with `"ZLIB"` or no longer than 12 bytes; a new-style section
shorter than the compression header), with the unsupported-compression error
when the new-style header's algorithm is not zlib, and with a decompression
failure when the zlib stream is invalid or does not decode to exactly
`sh_size` bytes; every non-failing call returns exactly `sh_size` bytes. -/
theorem c7_uncompress_to_errors (inflate : List Nat → Option (List Nat))
    (readChType : List Nat → Nat) (chdrSize : Nat) (s : Sec)
    (hc : s.compressed = true) (hu : s.uncompressed = false) :
    (s.isZdebug = true →
      (startsWithZLIB s.contents = false ∨ s.contents.length ≤ 12) →
      uncompress_to inflate readChType chdrSize s = .error .corrupted)
    ∧ (s.isZdebug = false → s.contents.length < chdrSize →
        uncompress_to inflate readChType chdrSize s = .error .corrupted)
    ∧ (s.isZdebug = false → ¬ s.contents.length < chdrSize →
        readChType s.contents ≠ ELFCOMPRESS_ZLIB →
        uncompress_to inflate readChType chdrSize s =
          .error (.unsupported (readChType s.contents)))
    ∧ (s.isZdebug = true →
        ¬ (startsWithZLIB s.contents = false ∨ s.contents.length ≤ 12) →
        badInflate inflate (s.contents.drop 12) s.sh_size →
        isDecompErr (uncompress_to inflate readChType chdrSize s) = true)
    ∧ (s.isZdebug = false → ¬ s.contents.length < chdrSize →
        readChType s.contents = ELFCOMPRESS_ZLIB →
        badInflate inflate (s.contents.drop chdrSize) s.sh_size →
        isDecompErr (uncompress_to inflate readChType chdrSize s) = true)
    ∧ (∀ out, uncompress_to inflate readChType chdrSize s = .ok out →
        out.length = s.sh_size) := by
  have hg : ¬ (s.compressed = false ∨ s.uncompressed = true) := by
    simp [hc, hu]
  refine ⟨?_, ?_, ?_, ?_, ?_, ?_⟩
  · intro hzd hbad
    unfold uncompress_to
    rw [if_neg hg, if_pos hzd, if_pos hbad]
  · intro hzd hlen
    unfold uncompress_to
    rw [if_neg hg, if_neg (by simp [hzd]), if_pos hlen]
  · intro hzd hlen hty
    unfold uncompress_to
    rw [if_neg hg, if_neg (by simp [hzd]), if_neg hlen, if_pos hty]
  · intro hzd hhdr hbad
    unfold uncompress_to
    rw [if_neg hg, if_pos hzd, if_neg hhdr]
    exact do_uncompress_bad inflate s.sh_size (s.contents.drop 12) hbad
  · intro hzd hlen hty hbad
    unfold uncompress_to
    rw [if_neg hg, if_neg (by simp [hzd]), if_neg hlen,
      if_neg (by simp [hty])]
    exact do_uncompress_bad inflate s.sh_size (s.contents.drop chdrSize) hbad
  · intro out hout
    unfold uncompress_to at hout
    rw [if_neg hg] at hout
    by_cases hzd : s.isZdebug = true
    · rw [if_pos hzd] at hout
      by_cases hh : startsWithZLIB s.contents = false ∨ s.contents.length ≤ 12
      · rw [if_pos hh] at hout
        cases hout
      · rw [if_neg hh] at hout
        exact do_uncompress_ok_length inflate s.sh_size
          (s.contents.drop 12) out hout
    · rw [if_neg hzd] at hout
      by_cases hl : s.contents.length < chdrSize
      · rw [if_pos hl] at hout
        cases hout
      · rw [if_neg hl] at hout
        by_cases hty : readChType s.contents ≠ ELFCOMPRESS_ZLIB
        · rw [if_pos hty] at hout
          cases hout
        · rw [if_neg hty] at hout
          exact do_uncompress_ok_length inflate s.sh_size
            (s.contents.drop chdrSize) out hout

/-- C7 witness: a `.zdebug` section whose contents do not start with `"ZLIB"`
fails with the corrupted-compressed-section error. -/
theorem c7_uncompress_to_errors_witness :
    uncompress_to (fun _ => none) (fun _ => 0) 24
        ⟨true, false, [0, 1, 2], 5, true, 1, true⟩ = .error .corrupted :=
  (c7_uncompress_to_errors (fun _ => none) (fun _ => 0) 24
      ⟨true, false, [0, 1, 2], 5, true, 1, true⟩ rfl rfl).1 rfl
    (Or.inl (by decide))

/-- C8: `uncompress` is idempotent — after one successful call a second call
returns the same section state unchanged, and on a section that is not
compressed it changes nothing. -/
theorem c8_uncompress_idempotent (inflate : List Nat → Option (List Nat))
    (readChType : List Nat → Nat) (chdrSize : Nat) (s : Sec) :
    (∀ s2, uncompress inflate readChType chdrSize s = .ok s2 →
      uncompress inflate readChType chdrSize s2 = .ok s2)
    ∧ (s.compressed = false → uncompress inflate readChType chdrSize s = .ok s) := by
  constructor
  · intro s2 h
    unfold uncompress at h
    by_cases hg : s.compressed = false ∨ s.uncompressed = true
    · rw [if_pos hg] at h
      cases h
      unfold uncompress
      rw [if_pos hg]
    · rw [if_neg hg] at h
      rcases hres : uncompress_to inflate readChType chdrSize s with e | buf <;>
        rw [hres] at h
      · cases h
      · cases h
        unfold uncompress
        rw [if_pos (Or.inr rfl)]
  · intro hcf
    unfold uncompress
    rw [if_pos (Or.inl hcf)]

/-- C8 witness: a second `uncompress` after a successful one is the identity,
shown on a concrete `.zdebug` section with a one-byte decoded stream. -/
theorem c8_uncompress_idempotent_witness :
    uncompress (fun _ => some [7]) (fun _ => 0) 24
        ⟨true, true, [7], 1, true, 1, true⟩ =
      .ok ⟨true, true, [7], 1, true, 1, true⟩ :=
  (c8_uncompress_idempotent (fun _ => some [7]) (fun _ => 0) 24
      ⟨true, false, [90, 76, 73, 66, 0, 0, 0, 0, 0, 0, 0, 1, 9], 1, true, 1,
       true⟩).1
    ⟨true, true, [7], 1, true, 1, true⟩ rfl

/-- A CIE record as read by `CieRecord::equals`: raw contents
(`get_contents()`), relocation entries (`get_rels()`), the record's
`input_offset`, the owning file's resolved symbol table (`file.symbols`,
identified by resolved-symbol identity since the source compares `Symbol`
pointers), and the addend reader (`input_section.get_addend`, a function of
the relocation entry). -/
structure Cie where
  contents : List Nat
  rels : List ElfRel
  input_offset : Nat
  syms : Nat → Nat
  addend : ElfRel → Int

/-- Unsigned 64-bit subtraction `a - b`, as the `u64` arithmetic in
`x[i].r_offset - input_offset` computes it. -/
def usub (a b : Nat) : Nat :=
  (((a : Int) - (b : Int)) % ((2 : Int) ^ 64)).toNat

/-- Default relocation entry used only to state indexed access. -/
def relDefault : ElfRel := ⟨0, 0, 0, 0⟩

/-- The loop-body comparison of `CieRecord::equals` for one pair of
relocations: relative offset, type, resolved symbol, addend. -/
def relEquiv (x y : Cie) (a b : ElfRel) : Bool :=
  if usub a.r_offset x.input_offset ≠ usub b.r_offset y.input_offset ∨
     a.r_type ≠ b.r_type ∨
     x.syms a.r_sym ≠ y.syms b.r_sym ∨
     x.addend a ≠ y.addend b then false
  else true

/-- Model of `CieRecord::equals(other)`: contents must match, relocation
counts must match, and the indexed loop is the pointwise check over the
zipped lists (the lengths are equal once the guard passes). -/
def cieEquals (x y : Cie) : Bool :=
  if x.contents ≠ y.contents then false
  else if x.rels.length ≠ y.rels.length then false
  else (x.rels.zip y.rels).all fun q => relEquiv x y q.1 q.2

theorem relEquiv_iff (x y : Cie) (a b : ElfRel) :
    relEquiv x y a b = true ↔
      (usub a.r_offset x.input_offset = usub b.r_offset y.input_offset ∧
       a.r_type = b.r_type ∧ x.syms a.r_sym = y.syms b.r_sym ∧
       x.addend a = y.addend b) := by
  unfold relEquiv
  split_ifs with h
  · simp only [Bool.false_eq_true, false_iff]
    tauto
  · push_neg at h
    simpa using h

theorem zip_getD_all_iff {α : Type} (p : α → α → Bool) (d : α) :
    ∀ as bs : List α, as.length = bs.length →
      (((as.zip bs).all fun q => p q.1 q.2) = true ↔
        ∀ i, i < as.length → p (as.getD i d) (bs.getD i d) = true) := by
  intro as
  induction as with
  | nil =>
    intro bs h
    simp
  | cons a as ih =>
    intro bs h
    cases bs with
    | nil => simp at h
    | cons b bs =>
      have hlen : as.length = bs.length := by simpa using h
      simp only [List.zip_cons_cons, List.all_cons, Bool.and_eq_true,
        List.length_cons]
      rw [ih bs hlen]
      constructor
      · rintro ⟨hp, hrest⟩ i hi
        cases i with
        | zero => simpa using hp
        | succ j =>
          have hj : j < as.length := by omega
          simpa using hrest j hj
      · intro hall
        constructor
        · simpa using hall 0 (by omega)
        · intro j hj
          simpa using hall (j + 1) (by omega)

/-- C9: `CieRecord::equals` returns true iff the raw contents are
byte-identical, the relocation lists have equal length, and pointwise each
pair of relocations has the same offset relative to its record's start, the
same type, the same resolved target symbol, and the same addend. -/
theorem c9_cie_equals_iff (x y : Cie) :
    cieEquals x y = true ↔
      (x.contents = y.contents ∧ x.rels.length = y.rels.length ∧
        ∀ i, i < x.rels.length →
          (usub (x.rels.getD i relDefault).r_offset x.input_offset =
              usub (y.rels.getD i relDefault).r_offset y.input_offset ∧
           (x.rels.getD i relDefault).r_type =
              (y.rels.getD i relDefault).r_type ∧
           x.syms (x.rels.getD i relDefault).r_sym =
              y.syms (y.rels.getD i relDefault).r_sym ∧
           x.addend (x.rels.getD i relDefault) =
              y.addend (y.rels.getD i relDefault))) := by
  unfold cieEquals
  by_cases h1 : x.contents = y.contents
  · by_cases h2 : x.rels.length = y.rels.length
    · rw [if_neg (not_not_intro h1), if_neg (not_not_intro h2),
        zip_getD_all_iff (fun a b => relEquiv x y a b) relDefault x.rels
          y.rels h2]
      simp only [relEquiv_iff]
      simp [h1, h2]
    · rw [if_neg (not_not_intro h1), if_pos h2]
      simp [h2]
  · rw [if_pos h1]
    simp [h1]

/-- C9 witness: two CIE records with identical contents whose relocations sit
at different file offsets and use different symbol indices, but agree on the
relative offset, type, resolved symbol and addend, compare equal. -/
theorem c9_cie_equals_iff_witness :
    cieEquals ⟨[1, 2], [⟨16, 3, 5, 7⟩], 16, fun _ => 42, fun r => r.r_addend⟩
        ⟨[1, 2], [⟨20, 3, 9, 7⟩], 20, fun _ => 42, fun r => r.r_addend⟩ =
      true :=
  (c9_cie_equals_iff
      ⟨[1, 2], [⟨16, 3, 5, 7⟩], 16, fun _ => 42, fun r => r.r_addend⟩
      ⟨[1, 2], [⟨20, 3, 9, 7⟩], 20, fun _ => 42, fun r => r.r_addend⟩).mpr
    (by refine ⟨rfl, rfl, ?_⟩; decide)

/-- Writing `src` at the start of buffer `dst` (the effect of
`memcpy(buf, src.data(), src.size())` or of decompressing into `buf`): the
written bytes followed by the untouched tail of `dst`. -/
def overwrite (src dst : List Nat) : List Nat :=
  src ++ dst.drop src.length

/-- Model of `InputSection::write_to(ctx, buf)`. The architecture-specific
collaborators `copy_contents_riscv`, `apply_reloc_alloc` and
`apply_reloc_nonalloc` live outside this translation unit and are abstract
buffer transformers; `isRiscv` is `is_riscv<E>`. -/
def write_to (inflate : List Nat → Option (List Nat))
    (readChType : List Nat → Nat) (chdrSize : Nat) (isRiscv : Bool)
    (copyContentsRiscv applyRelocAlloc applyRelocNonalloc :
      List Nat → List Nat) (s : Sec) (buf : List Nat) :
    Except UErr (List Nat) :=
  if s.sh_type = SHT_NOBITS ∨ s.sh_size = 0 then .ok buf
  else
    match
      (if isRiscv = true then .ok (copyContentsRiscv buf)
       else if s.compressed = true then
         (uncompress_to inflate readChType chdrSize s).map
           fun out => overwrite out buf
       else .ok (overwrite s.contents buf) : Except UErr (List Nat))
    with
    | .error e => .error e
    | .ok b1 =>
        .ok (if s.sh_flags_alloc = true then applyRelocAlloc b1
             else applyRelocNonalloc b1)

/-- C10: for a section of type `SHT_NOBITS` or with `sh_size = 0`, `write_to`
returns immediately: no byte is written and no relocation is applied, so the
caller-supplied buffer is returned entirely unchanged. -/
theorem c10_write_to_early_return (inflate : List Nat → Option (List Nat))
    (readChType : List Nat → Nat) (chdrSize : Nat) (isRiscv : Bool)
    (copyContentsRiscv applyRelocAlloc applyRelocNonalloc :
      List Nat → List Nat) (s : Sec) (buf : List Nat)
    (h : s.sh_type = SHT_NOBITS ∨ s.sh_size = 0) :
    write_to inflate readChType chdrSize isRiscv copyContentsRiscv
      applyRelocAlloc applyRelocNonalloc s buf = .ok buf := by
  unfold write_to
  rw [if_pos h]

/-- C10 witness: a concrete `SHT_NOBITS` section leaves a concrete buffer
unchanged, for arbitrary concrete collaborators. -/
theorem c10_write_to_early_return_witness :
    write_to (fun _ => none) (fun _ => 0) 24 false (fun b => b)
      (fun b => 0 :: b) (fun b => 1 :: b)
      ⟨false, false, [5, 6], 2, false, SHT_NOBITS, true⟩ [9, 9, 9] =
      .ok [9, 9, 9] :=
  c10_write_to_early_return (fun _ => none) (fun _ => 0) 24 false (fun b => b)
    (fun b => 0 :: b) (fun b => 1 :: b)
    ⟨false, false, [5, 6], 2, false, SHT_NOBITS, true⟩ [9, 9, 9]
    (Or.inl rfl)

end MoldElf
